import Mathlib

/-!
Shallow embedding of the PetDance cloud-function backend
(`functions/index.js` and `functions/helpers/replicate.js`):
the job lifecycle state machine (createJob / startJob / replicateWebhook),
the free-tier rate limiter, and Replicate webhook signature verification.

JavaScript strings are modelled as Lean `String` / `List Char`; machine
time is an integer (milliseconds for Firestore timestamps, seconds for the
webhook freshness check, mirroring `Date.now()` and `Date.now()/1000`);
the HMAC-SHA256-then-base64 primitive is an abstract function parameter
`hmacB64 : String → String → String` (key → message → base64 digest),
since the verification logic never inspects its internals.
-/

/-- Splits a character list at every occurrence of the separator `c`,
embedding JavaScript `String.prototype.split` with a single-character
separator (empty pieces are kept, and the result is never empty). -/
def splitOnChar (c : Char) : List Char → List (List Char)
  | [] => [[]]
  | x :: xs =>
    if x = c then [] :: splitOnChar c xs
    else
      match splitOnChar c xs with
      | [] => [[x]]
      | y :: ys => (x :: y) :: ys

/-- Decimal value of one base64 alphabet character, `none` for characters
outside the alphabet (Node's decoder skips those; `=` carries no data). -/
def b64CharVal (c : Char) : Option Nat :=
  if 'A' ≤ c ∧ c ≤ 'Z' then some (c.toNat - 65)
  else if 'a' ≤ c ∧ c ≤ 'z' then some (c.toNat - 71)
  else if '0' ≤ c ∧ c ≤ '9' then some (c.toNat + 4)
  else if c = '+' then some 62
  else if c = '/' then some 63
  else none

/-- Packs a list of 6-bit base64 digit values into bytes, three bytes per
group of four digits, with Node's handling of a trailing partial group. -/
def b64Pack : List Nat → List Nat
  | a :: b :: c :: d :: rest =>
    (a * 4 + b / 16) :: ((b % 16) * 16 + c / 4) :: ((c % 4) * 64 + d) :: b64Pack rest
  | [a, b, c] => [a * 4 + b / 16, (b % 16) * 16 + c / 4]
  | [a, b] => [a * 4 + b / 16]
  | _ => []

/-- Byte content of a base64 string under Node's lenient decoder
(`Buffer.from(s, 'base64')`): non-alphabet characters are ignored. -/
def decodeBase64 (l : List Char) : List Nat :=
  b64Pack (l.filterMap b64CharVal)

/-- Embeds `crypto.timingSafeEqual(Buffer.from(x,'base64'), Buffer.from(y,'base64'))`
wrapped in the helper's try/catch: the catch turns the length-mismatch throw
into `false`, so the whole construct is equality of the decoded byte strings. -/
def b64BytesEq (x y : List Char) : Bool :=
  decodeBase64 x == decodeBase64 y

/-- Leading decimal-digit prefix of a character list as a number,
`none` when it starts with no digit. -/
def leadDigits (l : List Char) : Option Nat :=
  let ds := l.takeWhile (fun c => '0' ≤ c ∧ c ≤ '9')
  if ds.isEmpty then none
  else some (ds.foldl (fun a c => a * 10 + (c.toNat - 48)) 0)

/-- Embeds JavaScript `parseInt(s, 10)`: skip leading whitespace, optional
sign, then the longest decimal-digit run; `none` models `NaN`. -/
def parseIntJS (l : List Char) : Option Int :=
  let l1 := l.dropWhile (fun c => c = ' ' ∨ c = '\t' ∨ c = '\n' ∨ c = '\r')
  match l1 with
  | '-' :: rest => (leadDigits rest).map (fun n => -(n : Int))
  | '+' :: rest => (leadDigits rest).map (fun n => (n : Int))
  | _ => (leadDigits l1).map (fun n => (n : Int))

/-- Removes the first occurrence of `pat` from `l`, embedding JavaScript
`String.prototype.replace(pat, '')` with a plain-string pattern. -/
def removeFirstOcc (pat : List Char) : List Char → List Char
  | [] => []
  | x :: xs =>
    if pat.isPrefixOf (x :: xs) then (x :: xs).drop pat.length
    else x :: removeFirstOcc pat xs

/-- The HMAC key derivation of `verifyWebhookSignature`:
`secret.replace('whsec_', '')`. -/
def stripSecretTag (secret : String) : String :=
  ⟨removeFirstOcc "whsec_".data secret.data⟩

/-- The signed content `webhookId + "." + timestamp + "." + body`
(helpers/replicate.js line 110). -/
def signedContent (webhookId timestamp body : String) : String :=
  webhookId ++ "." ++ timestamp ++ "." ++ body

/-- The candidate signatures extracted from the `webhook-signature` header
(helpers/replicate.js lines 117-120): split on spaces, then keep the last
comma-separated token of each piece. -/
def sigCandidates (signature : String) : List (List Char) :=
  (splitOnChar ' ' signature.data).map (fun s => (splitOnChar ',' s).getLastD [])

/-- Embeds `verifyWebhookSignature(body, webhookId, timestamp, signature, secret)`
from functions/helpers/replicate.js lines 108-138.  `hmacB64 key msg` stands
for base64(HMAC-SHA256(key, msg)); `nowSec` stands for `Date.now() / 1000`. -/
def verifyWebhookSignature (hmacB64 : String → String → String) (nowSec : Int)
    (body webhookId timestamp signature secret : String) : Bool :=
  let secretKey := stripSecretTag secret
  let expected := hmacB64 secretKey (signedContent webhookId timestamp body)
  let isValid := (sigCandidates signature).any (fun sig => b64BytesEq sig expected.data)
  let isRecent :=
    match parseIntJS timestamp.data with
    | none => false
    | some t => (nowSec - t).natAbs < 300
  isValid && isRecent

/-- Restatement of the spec's acceptance condition, written from the spec's
words (spec §4.3), to be compared with the implementation: some candidate in
the header carries the same bytes as the base64-encoded HMAC-SHA256 of
`id + "." + timestamp + "." + body` keyed by the prefix-stripped secret, AND
the timestamp differs from the current time by less than 5 minutes. -/
def signatureAcceptedSpec (hmacB64 : String → String → String) (nowSec : Int)
    (body webhookId timestamp signature secret : String) : Prop :=
  (∃ cand ∈ sigCandidates signature,
      decodeBase64 cand =
        decodeBase64 (hmacB64 (stripSecretTag secret)
          (signedContent webhookId timestamp body)).data) ∧
  (∃ t : Int, parseIntJS timestamp.data = some t ∧ (nowSec - t).natAbs < 300)

/-- Concrete stand-in for the abstract base64-HMAC used to instantiate the
signature theorems: it distinguishes the genuine (key, message) pair from
every other input. -/
def hmacSample : String → String → String := fun k m =>
  if k == "sec" && m == "id.100.body" then "QQ==" else "Ug=="

/-- JSON values, the payloads delivered to the webhook endpoint
(`JSON.parse` output shapes). -/
inductive JVal : Type where
  | jstr (s : String)
  | jnum (n : Int)
  | jbool (b : Bool)
  | jnull
  | jarr (xs : List JVal)
  | jobj (fields : List (String × JVal))
deriving Repr

/-- JavaScript truthiness of a JSON value. -/
def jTruthy : JVal → Bool
  | .jstr s => !(s == "")
  | .jnum n => !(n == 0)
  | .jbool b => b
  | .jnull => false
  | .jarr _ => true
  | .jobj _ => true

/-- Truthiness of a possibly-undefined string (`undefined` and `''` are falsy). -/
def optTruthy : Option String → Bool
  | some s => !(s == "")
  | none => false

/-- Truthiness of a possibly-undefined JSON value. -/
def jOptTruthy : Option JVal → Bool
  | some v => jTruthy v
  | none => false

/-- JavaScript property access `v[k]`: key lookup on objects, element 0 of an
array for the numeric index used by the handler, `undefined` elsewhere. -/
def jGet : JVal → String → Option JVal
  | .jobj fs, k => fs.lookup k
  | .jarr xs, k => if k == "0" then xs.head? else none
  | _, _ => none

/-- JavaScript `a || b` on possibly-undefined JSON values. -/
def jsOr (a b : Option JVal) : Option JVal :=
  if jOptTruthy a then a else b

/-- JavaScript `a || d` with a defined fallback. -/
def jsOrElseVal (e : Option JVal) (d : JVal) : JVal :=
  match e with
  | some v => if jTruthy v then v else d
  | none => d

/-- JavaScript strict equality `v === s` against a string literal. -/
def isStrEq (v : Option JVal) (s : String) : Bool :=
  match v with
  | some (.jstr t) => t == s
  | _ => false

/-- Keeps a value only if truthy, so `if (!v) throw` becomes a `none` test. -/
def truthyOrNone (v : Option JVal) : Option JVal :=
  if jOptTruthy v then v else none

/-- JavaScript `typeof v === 'object'` (true for arrays and `null` too). -/
def isObjectType : JVal → Bool
  | .jobj _ => true
  | .jarr _ => true
  | .jnull => true
  | _ => false

/-- The value when it is a truthy string, embedding
`if (!v || typeof v !== 'string')` rejection. -/
def strTruthy (v : Option JVal) : Option String :=
  match v with
  | some (.jstr s) => if s == "" then none else some s
  | _ => none

/-- Embeds the result-locator extraction of the webhook success branch
(functions/index.js lines 624-627): a bare string is used directly; otherwise
an object/array is probed for `url`, `video`, `output`, then index 0, and a
nested array is unwrapped one level to its first element. -/
def extractVideoUrl (output : JVal) : Option JVal :=
  match output with
  | .jstr s => some (.jstr s)
  | o =>
    if isObjectType o then
      let v := jsOr (jGet o "url") (jsOr (jGet o "video") (jsOr (jGet o "output") (jGet o "0")))
      match v with
      | some (.jarr xs) => xs.head?
      | x => x
    else none

/-- Job lifecycle status, Firestore field `status`. -/
inductive JobStatus : Type where
  | pending
  | processing
  | completed
  | failed
deriving DecidableEq, Repr

/-- The status string stored in Firestore and interpolated into responses. -/
def statusStr : JobStatus → String
  | .pending => "pending"
  | .processing => "processing"
  | .completed => "completed"
  | .failed => "failed"

/-- Rank of a status along the lifecycle chain
`pending → processing → {completed|failed}`. -/
def statusRank : JobStatus → Nat
  | .pending => 0
  | .processing => 1
  | .completed => 2
  | .failed => 2

/-- A `jobs/{jobId}` Firestore document (setup guide §6). -/
structure Job : Type where
  userId : String
  inputImagePath : String
  outputVideoPath : Option String
  status : JobStatus
  danceStyle : String
  replicateJobId : Option String
  createdAt : Int
  completedAt : Option Int
  errorMessage : Option JVal
deriving Repr

/-- A `users/{userId}` Firestore document (setup guide §6). -/
structure UserRec : Type where
  email : String
  subscriptionStatus : String
  revenuecatUserId : String
deriving DecidableEq, Repr

/-- The Firestore state: `jobs` and `users` collections as keyed lists. -/
structure DB : Type where
  jobs : List (String × Job)
  users : List (String × UserRec)
deriving Repr

/-- Firestore `doc(k).set(v)`: replace the document if present, create it
otherwise. -/
def setKV {α : Type} (l : List (String × α)) (k : String) (v : α) : List (String × α) :=
  if l.any (fun p => p.fst == k) then
    l.map (fun p => if p.fst == k then (k, v) else p)
  else l ++ [(k, v)]

/-- Firestore `doc(k).update(f)`: merge fields into the existing document. -/
def updateKV {α : Type} (l : List (String × α)) (k : String) (f : α → α) : List (String × α) :=
  l.map (fun p => if p.fst == k then (p.fst, f p.snd) else p)

/-- Observable external side effects of one handler invocation. -/
inductive Effect : Type where
  | inferenceCall (imageUrl : String)
  | fetchResult (url : JVal)
  | storageSave (path : String)
  | storageProbe (path : String)
deriving Repr

/-- The deterministic output storage path `outputs/{userId}/{jobId}/dance.mp4`. -/
def outputPathOf (userId jobId : String) : String :=
  "outputs/" ++ userId ++ "/" ++ jobId ++ "/dance.mp4"

def STORAGE_UNAVAILABLE_MSG : String :=
  "Video storage is being configured. Please try again later. (Storage requires billing setup)"

def FREE_USER_DAILY_LIMIT : Nat := 2

/-- The quota-exceeded message thrown by `checkRateLimit`. -/
def freeTierMsg : String :=
  "Free tier limit: 2 videos per day. Upgrade for unlimited!"

/-- Update one job document in the store. -/
def updJob (db : DB) (jid : String) (f : Job → Job) : DB :=
  { db with jobs := updateKV db.jobs jid f }

/-- The recurring `update({status:'failed', errorMessage, completedAt})` call. -/
def failJob (db : DB) (jid : String) (msg : JVal) (t : Int) : DB :=
  updJob db jid (fun j =>
    { j with status := .failed, errorMessage := some msg, completedAt := some t })

/-- The size of the Firestore query of `checkRateLimit` (functions/index.js
lines 294-298): this user's jobs with status in {processing, completed}
created within the trailing day (`setDate(getDate()-1)` modelled as 24 h). -/
def quotaCount (db : DB) (nowMs : Int) (userId : String) : Nat :=
  (db.jobs.filter (fun p =>
    p.snd.userId == userId &&
    (p.snd.status == JobStatus.processing || p.snd.status == JobStatus.completed) &&
    decide (nowMs - 86400000 ≤ p.snd.createdAt))).length

/-- Embeds `checkRateLimit(userId)` (functions/index.js lines 283-304):
`true` means allowed, `false` models the thrown free-tier error. -/
def checkRateLimit (db : DB) (nowMs : Int) (userId : String) : Bool :=
  let subStatus := (db.users.lookup userId).map (fun u => u.subscriptionStatus)
  if subStatus == some "active" then true
  else quotaCount db nowMs userId < FREE_USER_DAILY_LIMIT

/-- The inbound callback request: raw body plus the three signature headers
(absent headers are `none`). -/
structure WebhookReq : Type where
  rawBody : String
  webhookId : Option String
  webhookTimestamp : Option String
  webhookSignature : Option String

/-- Environment of one webhook invocation: configuration
(`REPLICATE_WEBHOOK_SECRET`, `REPLICATE_SKIP_WEBHOOK_VERIFY`), the abstract
HMAC and clock, the JSON parser, and the outcome of each external call
(storage availability, result fetch, storage save), plus the value Firestore
assigns for `serverTimestamp()`. -/
structure WebhookEnv : Type where
  secret : Option String
  skipVerify : Bool
  hmacB64 : String → String → String
  nowSec : Int
  parseJson : String → Option JVal
  bucketOk : Bool
  fetchOk : JVal → Bool
  saveOk : Bool
  srvTime : Int

/-- Result of one webhook invocation: HTTP status, response body, the new
Firestore state and the external side effects performed. -/
structure WebhookOut : Type where
  httpStatus : Nat
  body : String
  db : DB
  effects : List Effect

/-- Does the prediction id of the payload match a stored `replicateJobId`?
Embeds the Firestore query `where('replicateJobId', '==', payload.id)`:
only a string payload id can equal a stored string id. -/
def matchesRid (rid : Option JVal) (stored : Option String) : Bool :=
  match rid, stored with
  | some (.jstr s), some r => r == s
  | _, _ => false

/-- Embeds the completion-callback handler `webhookApp.post('*', ...)` from
functions/index.js lines 561-694.  Signature verification runs only when the
secret and all three headers are truthy and the skip flag is unset; a thrown
`No video URL in Replicate output` or a failed result fetch is caught by the
outer catch as a 500 `Processing error`; a storage save failure is caught
inline and recorded on the job. -/
def replicateWebhook (env : WebhookEnv) (req : WebhookReq) (db : DB) : WebhookOut :=
  let rawBody := req.rawBody
  if optTruthy env.secret && optTruthy req.webhookId && optTruthy req.webhookTimestamp &&
      optTruthy req.webhookSignature && !env.skipVerify &&
      !(verifyWebhookSignature env.hmacB64 env.nowSec rawBody
          (req.webhookId.getD "") (req.webhookTimestamp.getD "")
          (req.webhookSignature.getD "") (env.secret.getD "")) then
    ⟨401, "Invalid signature", db, []⟩
  else
    match env.parseJson rawBody with
    | none => ⟨400, "Invalid JSON", db, []⟩
    | some payload =>
      let rid := jGet payload "id"
      let pstatus := jGet payload "status"
      let output := jGet payload "output"
      let perr := jGet payload "error"
      if !(jOptTruthy rid) then ⟨400, "Missing prediction id", db, []⟩
      else
        match db.jobs.find? (fun p => matchesRid rid p.snd.replicateJobId) with
        | none => ⟨200, "OK", db, []⟩
        | some (jid, job) =>
          if isStrEq pstatus "succeeded" && jOptTruthy output then
            let videoUrl := truthyOrNone (match output with
              | some o => extractVideoUrl o
              | none => none)
            match videoUrl with
            | none => ⟨500, "Processing error", db, []⟩
            | some vurl =>
              if !env.bucketOk then
                ⟨200, "OK", failJob db jid (.jstr STORAGE_UNAVAILABLE_MSG) env.srvTime, []⟩
              else
                let outPath := outputPathOf job.userId jid
                if !(env.fetchOk vurl) then
                  ⟨500, "Processing error", db, [.fetchResult vurl]⟩
                else if !env.saveOk then
                  ⟨200, "OK", failJob db jid (.jstr STORAGE_UNAVAILABLE_MSG) env.srvTime,
                    [.fetchResult vurl, .storageSave outPath]⟩
                else
                  ⟨200, "OK",
                    updJob db jid (fun j =>
                      { j with
                        status := .completed
                        outputVideoPath := some outPath
                        completedAt := some env.srvTime
                        errorMessage := none }),
                    [.fetchResult vurl, .storageSave outPath]⟩
          else if isStrEq pstatus "failed" then
            ⟨200, "OK",
              failJob db jid (jsOrElseVal perr (.jstr "Replicate job failed")) env.srvTime, []⟩
          else if isStrEq pstatus "canceled" then
            ⟨200, "OK", failJob db jid (.jstr "Job was canceled") env.srvTime, []⟩
          else ⟨200, "OK", db, []⟩

/-- Environment of one `startJob` invocation (current handler,
functions/index.js lines 411-549): clock, storage availability and probe
outcome, mock-mode configuration, and the inference-provider outcome
(`Except.error msg` models a thrown `createPrediction` error).  The field
`inputImageExists` records whether the uploaded object really exists at
`job.inputImagePath`; the current handler never reads it. -/
structure StartEnv : Type where
  nowMs : Int
  bucketOk : Bool
  skipProbe : Bool
  probeOk : Bool
  mockMode : Bool
  mockVideoUrl : String
  mockFetchOk : Bool
  mockSaveOk : Bool
  mockErrMsg : String
  predict : Except String String
  inputImageExists : Bool
  srvTime : Int

/-- Result of one `createJob`/`startJob` invocation: HTTP status, the `error`
field of the JSON response if any, the new Firestore state and side effects. -/
structure StartOut : Type where
  httpStatus : Nat
  errMsg : Option String
  db : DB
  effects : List Effect

/-- Embeds `verifyStorageWritable(userId, jobId)` (functions/index.js lines
307-320), including the `.probe` write-and-delete side effect. -/
def verifyStorageWritable (env : StartEnv) (userId jobId : String) : Bool × List Effect :=
  if !env.bucketOk then (false, [])
  else if env.skipProbe then (true, [])
  else (env.probeOk, [.storageProbe ("outputs/" ++ userId ++ "/" ++ jobId ++ "/.probe")])

/-- Embeds JavaScript `s.startsWith(pre)` on the character-list model. -/
def strStartsWith (s pre : String) : Bool := pre.data.isPrefixOf s.data

/-- Embeds the current `startJob` handler (functions/index.js lines 411-549),
after bearer-token authentication has yielded `userId`.  `jobId` and
`imageUrl` are the request-body fields; the ignored `validateSubscription`
call (its result is unused and it never throws) is omitted; both mock-mode
failure messages are modelled by `mockErrMsg`. -/
def startJob (env : StartEnv) (db : DB) (userId : String)
    (jobId : Option String) (imageUrl : Option JVal) : StartOut :=
  if !(optTruthy jobId) then ⟨400, some "jobId is required", db, []⟩
  else
    match db.jobs.lookup (jobId.getD "") with
    | none => ⟨404, some "Job not found", db, []⟩
    | some job =>
      if !(job.userId == userId) then ⟨403, some "Unauthorized", db, []⟩
      else if !(job.status == JobStatus.pending) then
        ⟨400, some ("Job already " ++ statusStr job.status), db, []⟩
      else if !(checkRateLimit db env.nowMs userId) then
        ⟨500, some freeTierMsg, db, []⟩
      else
        match strTruthy imageUrl with
        | none =>
          ⟨400, some "imageUrl is required. Upload image first, then call startJob with the download URL.",
            db, []⟩
        | some url =>
          if !(strStartsWith url "http") then
            ⟨400, some "imageUrl must be a valid HTTP URL", db, []⟩
          else if !env.bucketOk then ⟨503, some STORAGE_UNAVAILABLE_MSG, db, []⟩
          else if !(verifyStorageWritable env userId (jobId.getD "")).fst then
            ⟨503, some STORAGE_UNAVAILABLE_MSG, db,
              (verifyStorageWritable env userId (jobId.getD "")).snd⟩
          else if env.mockMode then
            if !env.mockFetchOk then
              ⟨500, some ("Mock mode failed: " ++ env.mockErrMsg), db,
                (verifyStorageWritable env userId (jobId.getD "")).snd ++
                  [.fetchResult (.jstr env.mockVideoUrl)]⟩
            else if !env.mockSaveOk then
              ⟨500, some ("Mock mode failed: " ++ env.mockErrMsg), db,
                (verifyStorageWritable env userId (jobId.getD "")).snd ++
                  [.fetchResult (.jstr env.mockVideoUrl),
                   .storageSave (outputPathOf userId (jobId.getD ""))]⟩
            else
              ⟨200, none,
                updJob db (jobId.getD "") (fun j =>
                  { j with
                    status := .completed
                    outputVideoPath := some (outputPathOf userId (jobId.getD ""))
                    replicateJobId := some ("mock-" ++ jobId.getD "")
                    completedAt := some env.srvTime
                    errorMessage := none }),
                (verifyStorageWritable env userId (jobId.getD "")).snd ++
                  [.fetchResult (.jstr env.mockVideoUrl),
                   .storageSave (outputPathOf userId (jobId.getD ""))]⟩
          else
            match env.predict with
            | .error msg =>
              ⟨500, some msg, db,
                (verifyStorageWritable env userId (jobId.getD "")).snd ++ [.inferenceCall url]⟩
            | .ok pid =>
              ⟨200, none,
                updJob db (jobId.getD "") (fun j =>
                  { j with status := .processing, replicateJobId := some pid }),
                (verifyStorageWritable env userId (jobId.getD "")).snd ++ [.inferenceCall url]⟩

def validStyles : List String :=
  ["hip-hop", "ballet", "disco", "breakdance", "salsa", "robot"]

/-- Embeds `getOrCreateUser(userId, email)` (functions/index.js lines
263-277). -/
def getOrCreateUser (db : DB) (userId email : String) : DB :=
  match db.users.lookup userId with
  | some _ => db
  | none =>
    { db with users := db.users ++ [(userId, ⟨email, "none", userId⟩)] }

/-- Embeds the current `createJob` handler (functions/index.js lines
330-403), after authentication: style validation, lazy user creation, then
insertion of a fresh `pending` job (`doc()` generates `freshId`; freshness is
a hypothesis of the trace theorems). -/
def createJob (db : DB) (nowMs : Int) (userId email : String)
    (danceStyle : Option JVal) (freshId : String) : StartOut :=
  match strTruthy danceStyle with
  | none => ⟨400, some "danceStyle is required", db, []⟩
  | some ds =>
    if !(validStyles.contains ds) then
      ⟨400, some "Invalid danceStyle. Allowed: hip-hop, ballet, disco, breakdance, salsa, robot",
        db, []⟩
    else
      let db1 := getOrCreateUser db userId email
      let job : Job :=
        ⟨userId, "uploads/" ++ userId ++ "/" ++ freshId ++ "/original.jpg",
          none, .pending, ds, none, nowMs, none, none⟩
      ⟨200, none, { db1 with jobs := setKV db1.jobs freshId job }, []⟩

/-- Environment of the superseded `startJob` handler (functions/index.js
lines 1033-1150), which still probed storage for the uploaded input:
`storageOpsOk = false` models a thrown `exists()`/`getSignedUrl` call,
`inputImageExists` the result of `inputFile.exists()`, `signedUrl` the
signed read URL passed to the provider. -/
structure LegacyStartEnv : Type where
  nowMs : Int
  bucketOk : Bool
  storageOpsOk : Bool
  inputImageExists : Bool
  signedUrl : String
  predict : Except String String
  srvTime : Int

/-- Embeds the superseded `startJob` handler (functions/index.js lines
1033-1150): same ownership/state checks, then an existence check on
`job.inputImagePath` that marks the job `failed` (`Image not uploaded`) and
answers 400 before any inference call. -/
def startJobLegacy (env : LegacyStartEnv) (db : DB) (userId : String)
    (jobId : Option String) : StartOut :=
  if !(optTruthy jobId) then ⟨400, some "jobId is required", db, []⟩
  else
    match db.jobs.lookup (jobId.getD "") with
    | none => ⟨404, some "Job not found", db, []⟩
    | some job =>
      if !(job.userId == userId) then ⟨403, some "Unauthorized", db, []⟩
      else if !(job.status == JobStatus.pending) then
        ⟨400, some ("Job already " ++ statusStr job.status), db, []⟩
      else if !env.bucketOk then ⟨503, some STORAGE_UNAVAILABLE_MSG, db, []⟩
      else if !env.storageOpsOk then ⟨503, some STORAGE_UNAVAILABLE_MSG, db, []⟩
      else if !env.inputImageExists then
        ⟨400, some "Image not found. Please upload first.",
          failJob db (jobId.getD "") (.jstr "Image not uploaded") env.srvTime, []⟩
      else
        match env.predict with
        | .error msg => ⟨500, some msg, db, [.inferenceCall env.signedUrl]⟩
        | .ok pid =>
          ⟨200, none,
            updJob db (jobId.getD "") (fun j =>
              { j with status := .processing, replicateJobId := some pid }),
            [.inferenceCall env.signedUrl]⟩

/-- One invocation of a state-mutating operation of the orchestrator. -/
inductive Op : Type where
  | opCreate (nowMs : Int) (userId email : String) (danceStyle : Option JVal) (freshId : String)
  | opStart (env : StartEnv) (userId : String) (jobId : Option String) (imageUrl : Option JVal)
  | opWebhook (env : WebhookEnv) (req : WebhookReq)

/-- The Firestore state after one operation. -/
def stepDB (db : DB) : Op → DB
  | .opCreate nowMs uid email ds fid => (createJob db nowMs uid email ds fid).db
  | .opStart env uid jid img => (startJob env db uid jid img).db
  | .opWebhook env req => (replicateWebhook env req db).db

/-- The Firestore state after a sequence of operations. -/
def runOps (db : DB) : List Op → DB
  | [] => db
  | op :: rest => runOps (stepDB db op) rest

/-- Well-formedness of an operation against the current state: a `createJob`
uses a fresh auto-generated document id (Firestore `doc()` never collides). -/
def wfOp (db : DB) : Op → Bool
  | .opCreate _ _ _ _ fid => (db.jobs.lookup fid).isNone
  | _ => true

/-- Well-formedness of a whole trace. -/
def wfOps (db : DB) : List Op → Bool
  | [] => true
  | op :: rest => wfOp db op && wfOps (stepDB db op) rest

/-- A job already delivered: `completed` with its deterministic output path,
correlated to prediction `p1`. -/
def cbJobCompleted : Job :=
  ⟨"u1", "uploads/u1/j1/original.jpg", some "outputs/u1/j1/dance.mp4",
    .completed, "disco", some "p1", 0, some 5, none⟩

/-- A job mid-flight: `processing`, correlated to prediction `p1`. -/
def cbJobProcessing : Job :=
  ⟨"u1", "uploads/u1/j1/original.jpg", none, .processing, "disco", some "p1", 0, none, none⟩

/-- Store holding the completed job `j1` and its free-tier owner `u1`. -/
def dbCompleted : DB := ⟨[("j1", cbJobCompleted)], [("u1", ⟨"u1@x", "none", "u1"⟩)]⟩

/-- Store holding the processing job `j1` and its free-tier owner `u1`. -/
def dbProcessing : DB := ⟨[("j1", cbJobProcessing)], [("u1", ⟨"u1@x", "none", "u1"⟩)]⟩

/-- A callback request correctly signed under `hmacSample` for secret
`whsec_sec` at time 100. -/
def cbReq : WebhookReq := ⟨"body", some "id", some "100", some "v1,QQ=="⟩

/-- Webhook environment with the secret configured, verification on, all
external calls succeeding, and the given parsed payload. -/
def cbEnvWith (p : JVal) : WebhookEnv :=
  ⟨some "whsec_sec", false, hmacSample, 100, fun _ => some p, true, fun _ => true, true, 99⟩

/-- Provider report: prediction `p1` failed. -/
def failPayload : JVal := .jobj [("id", .jstr "p1"), ("status", .jstr "failed")]

/-- Provider report: prediction `p1` succeeded with a bare-string output. -/
def succPayload : JVal :=
  .jobj [("id", .jstr "p1"), ("status", .jstr "succeeded"), ("output", .jstr "https://cdn/v.mp4")]

/-- Provider report: success whose output object has no usable locator. -/
def emptyOutPayload : JVal :=
  .jobj [("id", .jstr "p1"), ("status", .jstr "succeeded"), ("output", .jobj [])]

/-- Provider progress report: neither succeeded, failed nor canceled. -/
def progressPayload : JVal := .jobj [("id", .jstr "p1"), ("status", .jstr "starting")]

/-- A callback request with the signature header absent. -/
def cbReqNoSig : WebhookReq := ⟨"body", some "id", some "100", none⟩

/-- A callback request carrying a signature that does not verify. -/
def cbReqBadSig : WebhookReq := ⟨"body", some "id", some "100", some "v1,Ug=="⟩

/-- A fresh pending job `j3` owned by `u1`, created at time 500. -/
def pendJob : Job :=
  ⟨"u1", "uploads/u1/j3/original.jpg", none, .pending, "disco", none, 500, none, none⟩

/-- Store with only the pending job `j3` and its free-tier owner. -/
def dbFreeOne : DB := ⟨[("j3", pendJob)], [("u1", ⟨"u1@x", "none", "u1"⟩)]⟩

/-- A quota-consuming job of `u1`: `processing`, created at time 500. -/
def quotaJob (rid : String) : Job :=
  ⟨"u1", "uploads/u1/x/original.jpg", none, .processing, "disco", some rid, 500, none, none⟩

/-- Store where free user `u1` already has two processing jobs in the window
plus the pending `j3`. -/
def dbQuota : DB :=
  ⟨[("ja", quotaJob "pa"), ("jb", quotaJob "pb"), ("j3", pendJob)],
   [("u1", ⟨"u1@x", "none", "u1"⟩)]⟩

/-- The same store but with `u1` an active subscriber. -/
def dbQuotaActive : DB :=
  ⟨[("ja", quotaJob "pa"), ("jb", quotaJob "pb"), ("j3", pendJob)],
   [("u1", ⟨"u1@x", "active", "u1"⟩)]⟩

/-- A benign `startJob` environment: storage fine, mock off, provider
succeeds with prediction id `pred-1`; the uploaded input object does NOT
exist (`inputImageExists = false`). -/
def envStart : StartEnv :=
  ⟨1000, true, true, true, false, "mock", true, true, "err", .ok "pred-1", false, 99⟩

/-- The superseded handler's environment at the same world: storage fine but
the input object absent. -/
def envLegacyNoImage : LegacyStartEnv :=
  ⟨1000, true, true, false, "https://signed", .ok "pred-1", 99⟩

theorem splitOnChar_ne_nil (c : Char) (l : List Char) : splitOnChar c l ≠ [] := by
  induction l with
  | nil => simp [splitOnChar]
  | cons x xs ih =>
    simp only [splitOnChar]
    split
    · simp
    · split
      · simp
      · simp

theorem splitOnChar_of_not_mem (c : Char) (l : List Char) (h : c ∉ l) :
    splitOnChar c l = [l] := by
  induction l with
  | nil => rfl
  | cons x xs ih =>
    simp only [List.mem_cons, not_or] at h
    simp only [splitOnChar]
    rw [if_neg (fun hx => h.1 hx.symm), ih h.2]

theorem splitOnChar_append (c : Char) (a b : List Char) :
    splitOnChar c (a ++ c :: b) = splitOnChar c a ++ splitOnChar c b := by
  induction a with
  | nil => simp [splitOnChar]
  | cons x xs ih =>
    simp only [List.cons_append, splitOnChar, List.append_eq]
    by_cases hx : x = c
    · rw [if_pos hx, if_pos hx, ih]
      simp
    · rw [if_neg hx, if_neg hx, ih]
      have hne := splitOnChar_ne_nil c xs
      match hsp : splitOnChar c xs with
      | [] => exact absurd hsp hne
      | y :: ys => simp

theorem getLastD_append_singleton {α : Type} (l : List α) (a d : α) :
    (l ++ [a]).getLastD d = a := by
  simp [List.getLastD_eq_getLast?, List.getLast?_concat]

theorem sigCandidates_single (sig : String)
    (h1 : ' ' ∉ sig.data) (h2 : ',' ∉ sig.data) :
    sigCandidates sig = [sig.data] := by
  unfold sigCandidates
  rw [splitOnChar_of_not_mem _ _ h1]
  simp [splitOnChar_of_not_mem _ _ h2]

theorem sigCandidates_tagged (tag sig : String)
    (htag : ' ' ∉ tag.data) (h1 : ' ' ∉ sig.data) (h2 : ',' ∉ sig.data) :
    sigCandidates (tag ++ "," ++ sig) = [sig.data] := by
  unfold sigCandidates
  have hdata : (tag ++ "," ++ sig).data = tag.data ++ ',' :: sig.data := by
    rw [String.data_append, String.data_append]
    simp
  have hnospace : ' ' ∉ (tag ++ "," ++ sig).data := by
    rw [hdata]
    intro hmem
    rcases List.mem_append.mp hmem with h | h
    · exact htag h
    · rcases List.mem_cons.mp h with h | h
      · exact absurd h (by decide)
      · exact h1 h
  rw [hdata] at hnospace ⊢
  rw [splitOnChar_of_not_mem _ _ hnospace]
  rw [List.map_singleton, splitOnChar_append,
    splitOnChar_of_not_mem _ _ h2, getLastD_append_singleton]

/-- C3: `verifyWebhookSignature(body, id, timestamp, signature, secret)` returns
true if and only if some candidate in the space-separated signature header
carries the bytes of the base64-encoded HMAC-SHA256 of
`id + "." + timestamp + "." + body` keyed by the prefix-stripped secret, AND
the timestamp differs from the current time by less than 5 minutes (300 s);
in particular a correctly signed fresh header verifies true, while altering
the body, using a different secret (each under the no-collision hypotheses on
the abstract HMAC), or using a 10-minute-old timestamp each independently
force the result false. -/
theorem verifyWebhookSignature_correct
    (hmacB64 : String → String → String) (nowSec tsVal : Int)
    (body body2 webhookId timestamp secret secret2 sig : String)
    (hts : parseIntJS timestamp.data = some tsVal)
    (hsp : ' ' ∉ sig.data) (hcm : ',' ∉ sig.data)
    (hsig : sig = hmacB64 (stripSecretTag secret) (signedContent webhookId timestamp body))
    (hbody : decodeBase64 (hmacB64 (stripSecretTag secret)
        (signedContent webhookId timestamp body2)).data ≠ decodeBase64 sig.data)
    (hsecret : decodeBase64 (hmacB64 (stripSecretTag secret2)
        (signedContent webhookId timestamp body)).data ≠ decodeBase64 sig.data) :
    (∀ header : String,
      verifyWebhookSignature hmacB64 nowSec body webhookId timestamp header secret = true ↔
        signatureAcceptedSpec hmacB64 nowSec body webhookId timestamp header secret)
    ∧ ((nowSec - tsVal).natAbs < 300 →
        verifyWebhookSignature hmacB64 nowSec body webhookId timestamp sig secret = true)
    ∧ verifyWebhookSignature hmacB64 nowSec body2 webhookId timestamp sig secret = false
    ∧ verifyWebhookSignature hmacB64 nowSec body webhookId timestamp sig secret2 = false
    ∧ (∀ ts2 : String, ∀ t2 : Int, parseIntJS ts2.data = some t2 →
        (nowSec - t2).natAbs ≥ 600 →
        ∀ header : String,
          verifyWebhookSignature hmacB64 nowSec body webhookId ts2 header secret = false) := by
  refine ⟨?_, ?_, ?_, ?_, ?_⟩
  · intro header
    simp only [verifyWebhookSignature, signatureAcceptedSpec, b64BytesEq, Bool.and_eq_true,
      List.any_eq_true, beq_iff_eq]
    rw [hts]
    constructor
    · rintro ⟨⟨cand, hc, he⟩, hr⟩
      exact ⟨⟨cand, hc, he⟩, tsVal, rfl, by simpa using hr⟩
    · rintro ⟨⟨cand, hc, he⟩, t, hpt, hlt⟩
      have ht' : t = tsVal := (Option.some.inj hpt).symm
      subst ht'
      exact ⟨⟨cand, hc, he⟩, by simpa using hlt⟩
  · intro hfresh
    simp only [verifyWebhookSignature, sigCandidates_single sig hsp hcm, List.any_cons,
      List.any_nil, b64BytesEq, Bool.or_false]
    rw [hts, ← hsig]
    simp [hfresh]
  · simp only [verifyWebhookSignature, sigCandidates_single sig hsp hcm, List.any_cons,
      List.any_nil, b64BytesEq, Bool.or_false]
    have : (decodeBase64 sig.data ==
        decodeBase64 (hmacB64 (stripSecretTag secret)
          (signedContent webhookId timestamp body2)).data) = false := by
      rw [beq_eq_false_iff_ne]
      exact fun h => hbody h.symm
    rw [this]
    simp
  · simp only [verifyWebhookSignature, sigCandidates_single sig hsp hcm, List.any_cons,
      List.any_nil, b64BytesEq, Bool.or_false]
    have : (decodeBase64 sig.data ==
        decodeBase64 (hmacB64 (stripSecretTag secret2)
          (signedContent webhookId timestamp body)).data) = false := by
      rw [beq_eq_false_iff_ne]
      exact fun h => hsecret h.symm
    rw [this]
    simp
  · intro ts2 t2 hpt hold header
    simp only [verifyWebhookSignature]
    rw [hpt]
    have : ((nowSec - t2).natAbs < 300) = False := by
      simp only [eq_iff_iff, iff_false, not_lt]
      omega
    simp [this]

/-- Witness for C3 at concrete inputs: the genuine fresh signature verifies,
and each tampering (body byte flipped, wrong secret, stale timestamp) fails. -/
theorem verifyWebhookSignature_correct_witness :
    verifyWebhookSignature hmacSample 100 "body" "id" "100" "QQ==" "whsec_sec" = true ∧
    verifyWebhookSignature hmacSample 100 "bodz" "id" "100" "QQ==" "whsec_sec" = false ∧
    verifyWebhookSignature hmacSample 100 "body" "id" "100" "QQ==" "other" = false ∧
    verifyWebhookSignature hmacSample 700 "body" "id" "100" "QQ==" "whsec_sec" = false := by
  have h := verifyWebhookSignature_correct hmacSample 100 100
    "body" "bodz" "id" "100" "whsec_sec" "other" "QQ=="
    (by decide) (by decide) (by decide) (by decide) (by decide) (by decide)
  have h700 := verifyWebhookSignature_correct hmacSample 700 100
    "body" "bodz" "id" "100" "whsec_sec" "other" "QQ=="
    (by decide) (by decide) (by decide) (by decide) (by decide) (by decide)
  refine ⟨h.2.1 (by decide), h.2.2.1, h.2.2.2.1, ?_⟩
  exact h700.2.2.2.2 "100" 100 (by decide) (by decide) "QQ=="

/-- C9: the verifier compares only the last comma-separated token of each
space-separated candidate and never inspects the version tag: for any tag
(with no embedded space) and any comma-free signature token, the header
`tag ++ "," ++ sig` verifies exactly as the bare header `sig` does, so a
matching signature is accepted under `v1`, `v2`, any other tag, or none. -/
theorem verifyWebhookSignature_ignores_version_tag
    (hmacB64 : String → String → String) (nowSec : Int)
    (body webhookId timestamp secret tag sig : String)
    (htag : ' ' ∉ tag.data)
    (h1 : ' ' ∉ sig.data) (h2 : ',' ∉ sig.data) :
    verifyWebhookSignature hmacB64 nowSec body webhookId timestamp
        (tag ++ "," ++ sig) secret =
      verifyWebhookSignature hmacB64 nowSec body webhookId timestamp sig secret := by
  simp only [verifyWebhookSignature, sigCandidates_tagged tag sig htag h1 h2,
    sigCandidates_single sig h1 h2]

/-- Witness for C9 at concrete inputs: tags `v1`, `v2`, an arbitrary tag and
no tag at all are all accepted alike. -/
theorem verifyWebhookSignature_ignores_version_tag_witness :
    verifyWebhookSignature hmacSample 100 "body" "id" "100" ("v1" ++ "," ++ "QQ==") "whsec_sec" =
      verifyWebhookSignature hmacSample 100 "body" "id" "100" "QQ==" "whsec_sec" ∧
    verifyWebhookSignature hmacSample 100 "body" "id" "100" ("v2" ++ "," ++ "QQ==") "whsec_sec" =
      verifyWebhookSignature hmacSample 100 "body" "id" "100" "QQ==" "whsec_sec" ∧
    verifyWebhookSignature hmacSample 100 "body" "id" "100" ("odd-tag" ++ "," ++ "QQ==") "whsec_sec" =
      verifyWebhookSignature hmacSample 100 "body" "id" "100" "QQ==" "whsec_sec" :=
  ⟨verifyWebhookSignature_ignores_version_tag hmacSample 100 "body" "id" "100" "whsec_sec"
      "v1" "QQ==" (by decide) (by decide) (by decide),
   verifyWebhookSignature_ignores_version_tag hmacSample 100 "body" "id" "100" "whsec_sec"
      "v2" "QQ==" (by decide) (by decide) (by decide),
   verifyWebhookSignature_ignores_version_tag hmacSample 100 "body" "id" "100" "whsec_sec"
      "odd-tag" "QQ==" (by decide) (by decide) (by decide)⟩

theorem lookup_cons {α : Type} (k a : String) (b : α) (t : List (String × α)) :
    List.lookup k ((a, b) :: t) = if k == a then some b else List.lookup k t := by
  simp only [List.lookup]
  cases h : k == a <;> simp

theorem lookup_updateKV {α : Type} (l : List (String × α)) (k k2 : String) (f : α → α) :
    (updateKV l k f).lookup k2 =
      if k2 = k then (l.lookup k2).map f else l.lookup k2 := by
  induction l with
  | nil => simp [updateKV]
  | cons p t ih =>
    obtain ⟨a, b⟩ := p
    simp only [updateKV, List.map_cons, beq_iff_eq] at ih ⊢
    by_cases hak : a = k
    · subst hak
      rw [if_pos rfl]
      simp only [lookup_cons, beq_iff_eq]
      by_cases h2 : k2 = a <;> simp [h2, ih]
    · rw [if_neg hak]
      simp only [lookup_cons, beq_iff_eq]
      by_cases h2 : k2 = a
      · subst h2
        simp [hak]
      · simp [h2, ih]

theorem lookup_append_some {α : Type} (l1 l2 : List (String × α)) (k : String) (v : α)
    (h : l1.lookup k = some v) : (l1 ++ l2).lookup k = some v := by
  induction l1 with
  | nil => simp [List.lookup] at h
  | cons p t ih =>
    obtain ⟨a, b⟩ := p
    rw [List.cons_append, lookup_cons] at *
    by_cases h2 : k = a
    · simpa [h2] using h
    · simp only [beq_iff_eq, if_neg h2] at h ⊢
      exact ih h

theorem lookup_append_none {α : Type} (l1 l2 : List (String × α)) (k : String)
    (h : l1.lookup k = none) : (l1 ++ l2).lookup k = l2.lookup k := by
  induction l1 with
  | nil => simp
  | cons p t ih =>
    obtain ⟨a, b⟩ := p
    rw [List.cons_append, lookup_cons] at *
    by_cases h2 : k = a
    · simp [h2] at h
    · simp only [beq_iff_eq, if_neg h2] at h ⊢
      exact ih h

theorem any_key_false_of_lookup_none {α : Type} (l : List (String × α)) (k : String)
    (h : l.lookup k = none) : (l.any (fun p => p.fst == k)) = false := by
  induction l with
  | nil => simp
  | cons p t ih =>
    obtain ⟨a, b⟩ := p
    rw [lookup_cons] at h
    by_cases h2 : k = a
    · simp [h2] at h
    · simp only [beq_iff_eq, if_neg h2] at h
      simp only [List.any_cons, ih h, Bool.or_false, beq_iff_eq]
      simpa using fun hc => h2 hc.symm

theorem setKV_fresh {α : Type} (l : List (String × α)) (k : String) (v : α)
    (h : l.lookup k = none) : setKV l k v = l ++ [(k, v)] := by
  unfold setKV
  rw [any_key_false_of_lookup_none l k h]
  simp

theorem getOrCreateUser_jobs (db : DB) (u e : String) :
    (getOrCreateUser db u e).jobs = db.jobs := by
  unfold getOrCreateUser
  cases db.users.lookup u <;> rfl

theorem replicateWebhook_db_shape (env : WebhookEnv) (req : WebhookReq) (db : DB) :
    (replicateWebhook env req db).db = db ∨
    ∃ jid g, (replicateWebhook env req db).db = updJob db jid g ∧
      ∀ x : Job, statusRank ((g x).status) = 2 := by
  unfold replicateWebhook
  dsimp only
  repeat' split
  all_goals
    first
    | (left; rfl)
    | (right; exact ⟨_, _, rfl, fun x => rfl⟩)

theorem startJob_db_shape (env : StartEnv) (db : DB) (uid : String)
    (jid? : Option String) (img : Option JVal) :
    (startJob env db uid jid? img).db = db ∨
    ∃ job g, db.jobs.lookup (jid?.getD "") = some job ∧ job.status = .pending ∧
      (startJob env db uid jid? img).db = updJob db (jid?.getD "") g := by
  by_cases h0 : optTruthy jid? = true
  case neg =>
    replace h0 : optTruthy jid? = false := by simpa using h0
    left; simp [startJob, h0]
  case pos =>
  cases hl : db.jobs.lookup (jid?.getD "") with
  | none => left; simp [startJob, h0, hl]
  | some job =>
  by_cases h1 : (job.userId == uid) = true
  case neg =>
    replace h1 : (job.userId == uid) = false := by simpa using h1
    left; simp [startJob, h0, hl, h1]
  case pos =>
  by_cases h2 : (job.status == JobStatus.pending) = true
  case neg =>
    replace h2 : (job.status == JobStatus.pending) = false := by simpa using h2
    left; simp [startJob, h0, hl, h1, h2]
  case pos =>
  have hpend : job.status = JobStatus.pending := by simpa using h2
  by_cases h3 : checkRateLimit db env.nowMs uid = true
  case neg =>
    replace h3 : checkRateLimit db env.nowMs uid = false := by simpa using h3
    left; simp [startJob, h0, hl, h1, h2, h3]
  case pos =>
  cases himg : strTruthy img with
  | none => left; simp [startJob, h0, hl, h1, h2, h3, himg]
  | some url =>
  by_cases h4 : strStartsWith url "http" = true
  case neg =>
    replace h4 : strStartsWith url "http" = false := by simpa using h4
    left; simp [startJob, h0, hl, h1, h2, h3, himg, h4]
  case pos =>
  by_cases h5 : env.bucketOk = true
  case neg =>
    replace h5 : env.bucketOk = false := by simpa using h5
    left; simp [startJob, h0, hl, h1, h2, h3, himg, h4, h5]
  case pos =>
  by_cases h6 : (verifyStorageWritable env uid (jid?.getD "")).fst = true
  case neg =>
    replace h6 : (verifyStorageWritable env uid (jid?.getD "")).fst = false := by simpa using h6
    left; simp [startJob, h0, hl, h1, h2, h3, himg, h4, h5, h6]
  case pos =>
  by_cases h7 : env.mockMode = true
  case pos =>
    by_cases h8 : env.mockFetchOk = true
    case neg =>
      replace h8 : env.mockFetchOk = false := by simpa using h8
      left; simp [startJob, h0, hl, h1, h2, h3, himg, h4, h5, h6, h7, h8]
    case pos =>
    by_cases h9 : env.mockSaveOk = true
    case neg =>
      replace h9 : env.mockSaveOk = false := by simpa using h9
      left; simp [startJob, h0, hl, h1, h2, h3, himg, h4, h5, h6, h7, h8, h9]
    case pos =>
      right
      refine ⟨job, (fun j =>
        { j with
          status := .completed
          outputVideoPath := some (outputPathOf uid (jid?.getD ""))
          replicateJobId := some ("mock-" ++ jid?.getD "")
          completedAt := some env.srvTime
          errorMessage := none }), rfl, hpend, ?_⟩
      simp [startJob, h0, hl, h1, h2, h3, himg, h4, h5, h6, h7, h8, h9, updJob]
  case neg =>
    replace h7 : env.mockMode = false := by simpa using h7
    cases hpred : env.predict with
    | error msg =>
      left
      simp [startJob, h0, hl, h1, h2, h3, himg, h4, h5, h6, h7, hpred]
    | ok pid =>
      right
      refine ⟨job, (fun j => { j with status := .processing, replicateJobId := some pid }),
        rfl, hpend, ?_⟩
      simp [startJob, h0, hl, h1, h2, h3, himg, h4, h5, h6, h7, hpred, updJob]

theorem createJob_jobs_shape (db : DB) (nowMs : Int) (uid email : String)
    (ds : Option JVal) (fid : String) (hfresh : db.jobs.lookup fid = none) :
    (createJob db nowMs uid email ds fid).db.jobs = db.jobs ∨
    ∃ nj, (createJob db nowMs uid email ds fid).db.jobs = db.jobs ++ [(fid, nj)] := by
  unfold createJob
  cases hds : strTruthy ds with
  | none => left; rfl
  | some s =>
    by_cases hv : validStyles.contains s = true
    · right
      refine ⟨⟨uid, "uploads/" ++ uid ++ "/" ++ fid ++ "/original.jpg",
        none, .pending, s, none, nowMs, none, none⟩, ?_⟩
      have hj : (getOrCreateUser db uid email).jobs = db.jobs := getOrCreateUser_jobs db uid email
      simp only [hds, hv, Bool.not_true, Bool.false_eq_true, if_false]
      rw [hj, setKV_fresh _ _ _ hfresh]
    · replace hv : validStyles.contains s = false := by simpa using hv
      left
      simp only [hds, hv, Bool.not_false, if_true]

theorem statusRank_le_two (s : JobStatus) : statusRank s ≤ 2 := by
  cases s <;> simp [statusRank]

theorem stepDB_mono (db : DB) (op : Op) (hwf : wfOp db op = true)
    (jid : String) (j : Job) (hl : db.jobs.lookup jid = some j) :
    ∃ j2, (stepDB db op).jobs.lookup jid = some j2 ∧
      statusRank j.status ≤ statusRank j2.status := by
  cases op with
  | opCreate nowMs uid email ds fid =>
    have hfresh : db.jobs.lookup fid = none := by
      simpa [wfOp, Option.isNone_iff_eq_none] using hwf
    rcases createJob_jobs_shape db nowMs uid email ds fid hfresh with h | ⟨nj, h⟩
    · refine ⟨j, ?_, le_refl _⟩
      simp only [stepDB, h]
      exact hl
    · refine ⟨j, ?_, le_refl _⟩
      simp only [stepDB, h]
      exact lookup_append_some _ _ _ _ hl
  | opStart env uid jid2 img =>
    rcases startJob_db_shape env db uid jid2 img with h | ⟨job, g, hl2, hpend, h⟩
    · refine ⟨j, ?_, le_refl _⟩
      simp only [stepDB, h]
      exact hl
    · simp only [stepDB, h, updJob]
      rw [lookup_updateKV]
      by_cases hjj : jid = jid2.getD ""
      · subst hjj
        have hj : j = job := by
          have := hl.symm.trans hl2
          exact Option.some.inj this.symm |>.symm
        subst hj
        rw [if_pos rfl, hl]
        exact ⟨g j, rfl, by rw [hpend]; exact Nat.zero_le _⟩
      · rw [if_neg hjj]
        exact ⟨j, hl, le_refl _⟩
  | opWebhook env req =>
    rcases replicateWebhook_db_shape env req db with h | ⟨jid2, g, h, hg⟩
    · refine ⟨j, ?_, le_refl _⟩
      simp only [stepDB, h]
      exact hl
    · simp only [stepDB, h, updJob]
      rw [lookup_updateKV]
      by_cases hjj : jid = jid2
      · rw [if_pos hjj, hl]
        refine ⟨g j, rfl, ?_⟩
        rw [hg j]
        exact statusRank_le_two j.status
      · rw [if_neg hjj]
        exact ⟨j, hl, le_refl _⟩

theorem runOps_mono (ops : List Op) : ∀ (db : DB) (jid : String) (j : Job),
    wfOps db ops = true → db.jobs.lookup jid = some j →
    ∃ j2, (runOps db ops).jobs.lookup jid = some j2 ∧
      statusRank j.status ≤ statusRank j2.status := by
  induction ops with
  | nil => exact fun db jid j _ hl => ⟨j, hl, le_refl _⟩
  | cons op rest ih =>
    intro db jid j hwf hl
    have hwf2 : wfOp db op = true ∧ wfOps (stepDB db op) rest = true := by
      simpa [wfOps, Bool.and_eq_true] using hwf
    obtain ⟨j1, hl1, hr1⟩ := stepDB_mono db op hwf2.1 jid j hl
    obtain ⟨j2, hl2, hr2⟩ := ih (stepDB db op) jid j1 hwf2.2 hl1
    exact ⟨j2, by simpa [runOps] using hl2, le_trans hr1 hr2⟩

theorem startJob_preserves_terminal (env : StartEnv) (db : DB) (uid : String)
    (jid? : Option String) (img : Option JVal) (jid : String) (j : Job)
    (hl : db.jobs.lookup jid = some j)
    (hterm : j.status = JobStatus.completed ∨ j.status = JobStatus.failed) :
    (startJob env db uid jid? img).db.jobs.lookup jid = some j := by
  rcases startJob_db_shape env db uid jid? img with h | ⟨job, g, hl2, hpend, h⟩
  · rw [h]; exact hl
  · rw [h]
    simp only [updJob]
    rw [lookup_updateKV]
    by_cases hjj : jid = jid?.getD ""
    · subst hjj
      have hj : j = job := Option.some.inj (hl.symm.trans hl2)
      subst hj
      rcases hterm with ht | ht <;> rw [ht] at hpend <;> cases hpend
    · rw [if_neg hjj]
      exact hl

theorem createJob_preserves_existing (db : DB) (nowMs : Int) (uid email : String)
    (ds : Option JVal) (fid : String) (jid : String) (j : Job)
    (hfresh : db.jobs.lookup fid = none) (hl : db.jobs.lookup jid = some j) :
    (createJob db nowMs uid email ds fid).db.jobs.lookup jid = some j := by
  rcases createJob_jobs_shape db nowMs uid email ds fid hfresh with h | ⟨nj, h⟩
  · rw [h]; exact hl
  · rw [h]; exact lookup_append_some _ _ _ _ hl

/-- C2 fails on the code: the webhook handler never checks the current status
before applying a terminal transition, so a signature-valid `failed` callback
for an already-`completed` job overwrites `completed` with `failed`, leaving
the terminal state. -/
theorem jobStatus_monotone_cex :
    ((dbCompleted.jobs.lookup "j1").map Job.status = some JobStatus.completed) ∧
    (((replicateWebhook (cbEnvWith failPayload) cbReq dbCompleted).db.jobs.lookup "j1").map
        Job.status = some JobStatus.failed) ∧
    verifyWebhookSignature hmacSample 100 "body" "id" "100" "v1,QQ==" "whsec_sec" = true :=
  ⟨rfl, rfl, rfl⟩

/-- C2 (amended): along every well-formed operation sequence the status rank
is monotone (`pending` < `processing` < terminal) — a job never returns to an
earlier phase — and `createJob`/`startJob` never modify a terminal job; the
original claim fails only in that the unguarded webhook handler may overwrite
one terminal status with the other on a late callback. -/
theorem jobStatus_monotone (db0 : DB) (ops : List Op) (jid : String) (j : Job)
    (hwf : wfOps db0 ops = true) (hl : db0.jobs.lookup jid = some j) :
    (∃ j2, (runOps db0 ops).jobs.lookup jid = some j2 ∧
       statusRank j.status ≤ statusRank j2.status)
    ∧ (∀ (env : StartEnv) (uid : String) (jid2 : Option String) (img : Option JVal),
         (j.status = JobStatus.completed ∨ j.status = JobStatus.failed) →
         (startJob env db0 uid jid2 img).db.jobs.lookup jid = some j)
    ∧ (∀ (nowMs : Int) (uid email : String) (ds : Option JVal) (fid : String),
         db0.jobs.lookup fid = none →
         (createJob db0 nowMs uid email ds fid).db.jobs.lookup jid = some j) :=
  ⟨runOps_mono ops db0 jid j hwf hl,
   fun env uid jid2 img hterm =>
     startJob_preserves_terminal env db0 uid jid2 img jid j hl hterm,
   fun nowMs uid email ds fid hfresh =>
     createJob_preserves_existing db0 nowMs uid email ds fid jid j hfresh hl⟩

/-- Witness for C2 (amended) on a concrete trace: a processing job stays at
rank ≥ 1 across a successful completion callback. -/
theorem jobStatus_monotone_witness :
    ∃ j2, (runOps dbProcessing [Op.opWebhook (cbEnvWith succPayload) cbReq]).jobs.lookup "j1"
        = some j2 ∧
      statusRank cbJobProcessing.status ≤ statusRank j2.status :=
  (jobStatus_monotone dbProcessing [Op.opWebhook (cbEnvWith succPayload) cbReq]
    "j1" cbJobProcessing (by rfl) (by rfl)).1

/-- C1 fails on the code: with the secret configured but the signature header
missing, the handler skips verification entirely and still mutates the
matched job, so "no callback request mutates any Job unless signature
verification has first succeeded" is false. -/
theorem webhook_auth_gate_cex :
    cbReqNoSig.webhookSignature = none ∧
    (cbEnvWith failPayload).secret = some "whsec_sec" ∧
    ((replicateWebhook (cbEnvWith failPayload) cbReqNoSig dbProcessing).db.jobs.lookup
        "j1").map Job.status = some JobStatus.failed ∧
    (dbProcessing.jobs.lookup "j1").map Job.status = some JobStatus.processing :=
  ⟨rfl, rfl, rfl, rfl⟩

/-- C1 (amended): whenever the handler actually performs signature
verification (secret configured, all three signature headers present and
truthy, skip flag unset) and verification fails, it answers 401 with no
job-record mutation and no external effect (no result download, no storage
write); the original claim fails only in that verification is skipped — and
processing proceeds unverified — when the secret is unset, a header is
missing, or the skip-verify flag is set. -/
theorem webhook_auth_gate (env : WebhookEnv) (req : WebhookReq) (db : DB)
    (hs : optTruthy env.secret = true)
    (h1 : optTruthy req.webhookId = true)
    (h2 : optTruthy req.webhookTimestamp = true)
    (h3 : optTruthy req.webhookSignature = true)
    (hskip : env.skipVerify = false)
    (hv : verifyWebhookSignature env.hmacB64 env.nowSec req.rawBody
        (req.webhookId.getD "") (req.webhookTimestamp.getD "")
        (req.webhookSignature.getD "") (env.secret.getD "") = false) :
    replicateWebhook env req db = ⟨401, "Invalid signature", db, []⟩ := by
  unfold replicateWebhook
  simp [hs, h1, h2, h3, hskip, hv]

/-- Witness for C1 (amended): a concrete badly-signed request is rejected 401
with the store untouched. -/
theorem webhook_auth_gate_witness :
    replicateWebhook (cbEnvWith failPayload) cbReqBadSig dbProcessing =
      ⟨401, "Invalid signature", dbProcessing, []⟩ :=
  webhook_auth_gate (cbEnvWith failPayload) cbReqBadSig dbProcessing
    rfl rfl rfl rfl rfl (by rfl)

/-- C10: a valid callback that matches a job but whose payload status is
neither `succeeded`-with-truthy-output, `failed`, nor `canceled` (e.g. a
`starting` or `processing` progress update) is acknowledged 200 and leaves
the whole store — hence every field of the matched job — unchanged, with no
external effect. -/
theorem webhook_progress_noop (env : WebhookEnv) (req : WebhookReq) (db : DB)
    (payload : JVal) (jid : String) (job : Job)
    (hv : verifyWebhookSignature env.hmacB64 env.nowSec req.rawBody
        (req.webhookId.getD "") (req.webhookTimestamp.getD "")
        (req.webhookSignature.getD "") (env.secret.getD "") = true)
    (hp : env.parseJson req.rawBody = some payload)
    (hid : jOptTruthy (jGet payload "id") = true)
    (hfind : db.jobs.find? (fun p => matchesRid (jGet payload "id") p.snd.replicateJobId)
        = some (jid, job))
    (hsucc : (isStrEq (jGet payload "status") "succeeded"
        && jOptTruthy (jGet payload "output")) = false)
    (hfail : isStrEq (jGet payload "status") "failed" = false)
    (hcanc : isStrEq (jGet payload "status") "canceled" = false) :
    replicateWebhook env req db = ⟨200, "OK", db, []⟩ := by
  unfold replicateWebhook
  simp [hv, hp, hid, hfind, hsucc, hfail, hcanc]

/-- Witness for C10: a concrete signed `starting` progress update for a
processing job answers 200 and changes nothing. -/
theorem webhook_progress_noop_witness :
    replicateWebhook (cbEnvWith progressPayload) cbReq dbProcessing =
      ⟨200, "OK", dbProcessing, []⟩ :=
  webhook_progress_noop (cbEnvWith progressPayload) cbReq dbProcessing
    progressPayload "j1" cbJobProcessing rfl rfl rfl (by rfl) rfl rfl rfl

/-- C4 fails on the code: an authenticated success callback whose output
field holds no usable locator is answered 500 (`Processing error`), not 200,
and the job is left `processing` — nothing records the failure. -/
theorem webhook_internal_failure_cex :
    (replicateWebhook (cbEnvWith emptyOutPayload) cbReq dbProcessing).httpStatus = 500 ∧
    ((replicateWebhook (cbEnvWith emptyOutPayload) cbReq dbProcessing).db.jobs.lookup
        "j1").map Job.status = some JobStatus.processing ∧
    verifyWebhookSignature hmacSample 100 "body" "id" "100" "v1,QQ==" "whsec_sec" = true :=
  ⟨rfl, rfl, rfl⟩

/-- C4 (amended): once authenticity is established and a success payload
matches a job, storage unavailability and storage-write failure ARE recorded
by marking the job `failed` with a reason while still answering 200; but a
missing usable locator or a failed result fetch instead surfaces a 500
`Processing error` to the provider and leaves the job unchanged (still
`processing`). -/
theorem webhook_internal_failure (env : WebhookEnv) (req : WebhookReq) (db : DB)
    (payload outv : JVal) (jid : String) (job : Job)
    (hv : verifyWebhookSignature env.hmacB64 env.nowSec req.rawBody
        (req.webhookId.getD "") (req.webhookTimestamp.getD "")
        (req.webhookSignature.getD "") (env.secret.getD "") = true)
    (hp : env.parseJson req.rawBody = some payload)
    (hid : jOptTruthy (jGet payload "id") = true)
    (hfind : db.jobs.find? (fun p => matchesRid (jGet payload "id") p.snd.replicateJobId)
        = some (jid, job))
    (hst : isStrEq (jGet payload "status") "succeeded" = true)
    (hov : jGet payload "output" = some outv)
    (hot : jTruthy outv = true) :
    (truthyOrNone (extractVideoUrl outv) = none →
      replicateWebhook env req db = ⟨500, "Processing error", db, []⟩)
    ∧ (∀ vurl, truthyOrNone (extractVideoUrl outv) = some vurl →
        env.bucketOk = false →
        replicateWebhook env req db =
          ⟨200, "OK", failJob db jid (.jstr STORAGE_UNAVAILABLE_MSG) env.srvTime, []⟩)
    ∧ (∀ vurl, truthyOrNone (extractVideoUrl outv) = some vurl →
        env.bucketOk = true → env.fetchOk vurl = false →
        replicateWebhook env req db = ⟨500, "Processing error", db, [.fetchResult vurl]⟩)
    ∧ (∀ vurl, truthyOrNone (extractVideoUrl outv) = some vurl →
        env.bucketOk = true → env.fetchOk vurl = true → env.saveOk = false →
        replicateWebhook env req db =
          ⟨200, "OK", failJob db jid (.jstr STORAGE_UNAVAILABLE_MSG) env.srvTime,
            [.fetchResult vurl, .storageSave (outputPathOf job.userId jid)]⟩) := by
  have hot2 : jOptTruthy (some outv) = true := by simpa [jOptTruthy] using hot
  refine ⟨?_, ?_, ?_, ?_⟩
  · intro hex
    unfold replicateWebhook
    simp [hv, hp, hid, hfind, hst, hov, hot2, hex]
  · intro vurl hex hb
    unfold replicateWebhook
    simp [hv, hp, hid, hfind, hst, hov, hot2, hex, hb]
  · intro vurl hex hb hf
    unfold replicateWebhook
    simp [hv, hp, hid, hfind, hst, hov, hot2, hex, hb, hf]
  · intro vurl hex hb hf hsv
    unfold replicateWebhook
    simp [hv, hp, hid, hfind, hst, hov, hot2, hex, hb, hf, hsv]

/-- Witness for C4 (amended) at the no-usable-locator input: 500 and an
untouched store. -/
theorem webhook_internal_failure_witness :
    replicateWebhook (cbEnvWith emptyOutPayload) cbReq dbProcessing =
      ⟨500, "Processing error", dbProcessing, []⟩ :=
  (webhook_internal_failure (cbEnvWith emptyOutPayload) cbReq dbProcessing
    emptyOutPayload (.jobj []) "j1" cbJobProcessing
    rfl rfl rfl (by rfl) rfl rfl rfl).1 rfl

/-- C5 fails on the code: a second, identical, signature-valid success
callback for the already-`completed` job re-fetches the result and performs
another storage write — the callback is not a no-op. -/
theorem webhook_duplicate_cb_cex :
    (dbCompleted.jobs.lookup "j1").map Job.status = some JobStatus.completed ∧
    (replicateWebhook (cbEnvWith succPayload) cbReq dbCompleted).effects =
      [Effect.fetchResult (.jstr "https://cdn/v.mp4"),
       Effect.storageSave "outputs/u1/j1/dance.mp4"] ∧
    verifyWebhookSignature hmacSample 100 "body" "id" "100" "v1,QQ==" "whsec_sec" = true :=
  ⟨rfl, rfl, rfl⟩

/-- C5 (amended): a duplicate success callback for an already-`completed` job
leaves the VALUE of `outputVideoPath` unchanged (the output path is the
deterministic `outputs/{userId}/{jobId}/dance.mp4`) and the job `completed`,
and the handler answers 200 — but it is not a no-op: it re-fetches the result
and performs a duplicate storage write to the same path, and rewrites
`completedAt`. -/
theorem webhook_duplicate_cb (env : WebhookEnv) (req : WebhookReq) (db : DB)
    (payload outv vurl : JVal) (jid : String) (job : Job)
    (hv : verifyWebhookSignature env.hmacB64 env.nowSec req.rawBody
        (req.webhookId.getD "") (req.webhookTimestamp.getD "")
        (req.webhookSignature.getD "") (env.secret.getD "") = true)
    (hp : env.parseJson req.rawBody = some payload)
    (hid : jOptTruthy (jGet payload "id") = true)
    (hfind : db.jobs.find? (fun p => matchesRid (jGet payload "id") p.snd.replicateJobId)
        = some (jid, job))
    (hlk : db.jobs.lookup jid = some job)
    (hst : isStrEq (jGet payload "status") "succeeded" = true)
    (hov : jGet payload "output" = some outv)
    (hot : jTruthy outv = true)
    (hex : truthyOrNone (extractVideoUrl outv) = some vurl)
    (hb : env.bucketOk = true) (hf : env.fetchOk vurl = true) (hsv : env.saveOk = true)
    (hdone : job.status = JobStatus.completed)
    (hpath : job.outputVideoPath = some (outputPathOf job.userId jid)) :
    (replicateWebhook env req db).httpStatus = 200 ∧
    ((replicateWebhook env req db).db.jobs.lookup jid).map Job.outputVideoPath =
      some job.outputVideoPath ∧
    ((replicateWebhook env req db).db.jobs.lookup jid).map Job.status =
      some JobStatus.completed ∧
    (replicateWebhook env req db).effects =
      [.fetchResult vurl, .storageSave (outputPathOf job.userId jid)] := by
  have hot2 : jOptTruthy (some outv) = true := by simpa [jOptTruthy] using hot
  have hred : replicateWebhook env req db =
      ⟨200, "OK",
        updJob db jid (fun j =>
          { j with
            status := .completed
            outputVideoPath := some (outputPathOf job.userId jid)
            completedAt := some env.srvTime
            errorMessage := none }),
        [.fetchResult vurl, .storageSave (outputPathOf job.userId jid)]⟩ := by
    unfold replicateWebhook
    simp [hv, hp, hid, hfind, hst, hov, hot2, hex, hb, hf, hsv]
  rw [hred]
  refine ⟨rfl, ?_, ?_, rfl⟩
  · simp [updJob, lookup_updateKV, hlk, hpath]
  · simp [updJob, lookup_updateKV, hlk]

/-- Witness for C5 (amended) at the concrete duplicate callback. -/
theorem webhook_duplicate_cb_witness :
    (replicateWebhook (cbEnvWith succPayload) cbReq dbCompleted).httpStatus = 200 ∧
    ((replicateWebhook (cbEnvWith succPayload) cbReq dbCompleted).db.jobs.lookup
        "j1").map Job.outputVideoPath = some cbJobCompleted.outputVideoPath ∧
    ((replicateWebhook (cbEnvWith succPayload) cbReq dbCompleted).db.jobs.lookup
        "j1").map Job.status = some JobStatus.completed ∧
    (replicateWebhook (cbEnvWith succPayload) cbReq dbCompleted).effects =
      [.fetchResult (.jstr "https://cdn/v.mp4"),
       .storageSave (outputPathOf cbJobCompleted.userId "j1")] :=
  webhook_duplicate_cb (cbEnvWith succPayload) cbReq dbCompleted
    succPayload (.jstr "https://cdn/v.mp4") (.jstr "https://cdn/v.mp4") "j1" cbJobCompleted
    rfl rfl rfl (by rfl) (by rfl) rfl rfl rfl rfl rfl rfl rfl rfl rfl

/-- C8: with a job id supplied, `startJob` answers 404 when the job is
absent, 403 when the caller is not the owner, and 400 `Job already <status>`
when the job is not `pending` — in every case with the store unchanged and no
external effect (in particular no inference call). -/
theorem startJob_precondition_errors (env : StartEnv) (db : DB) (uid jid : String)
    (img : Option JVal) (hjid : jid ≠ "") :
    (db.jobs.lookup jid = none →
       startJob env db uid (some jid) img = ⟨404, some "Job not found", db, []⟩)
    ∧ (∀ job, db.jobs.lookup jid = some job → job.userId ≠ uid →
       startJob env db uid (some jid) img = ⟨403, some "Unauthorized", db, []⟩)
    ∧ (∀ job, db.jobs.lookup jid = some job → job.userId = uid →
       job.status ≠ JobStatus.pending →
       startJob env db uid (some jid) img =
         ⟨400, some ("Job already " ++ statusStr job.status), db, []⟩) := by
  have h0 : optTruthy (some jid) = true := by simp [optTruthy, hjid]
  refine ⟨?_, ?_, ?_⟩
  · intro hl
    simp [startJob, h0, hl]
  · intro job hl hne
    have hOwn : (job.userId == uid) = false := by simp [hne]
    simp [startJob, h0, hl, hOwn]
  · intro job hl hown hnp
    have hOwn : (job.userId == uid) = true := by simp [hown]
    have hPend : (job.status == JobStatus.pending) = false := by simp [hnp]
    simp [startJob, h0, hl, hOwn, hPend]

/-- Witness for C8: the three error cases at concrete inputs. -/
theorem startJob_precondition_errors_witness :
    startJob envStart dbProcessing "u1" (some "nope") (some (.jstr "http://x")) =
      ⟨404, some "Job not found", dbProcessing, []⟩ ∧
    startJob envStart dbProcessing "u2" (some "j1") (some (.jstr "http://x")) =
      ⟨403, some "Unauthorized", dbProcessing, []⟩ ∧
    startJob envStart dbProcessing "u1" (some "j1") (some (.jstr "http://x")) =
      ⟨400, some ("Job already " ++ statusStr JobStatus.processing), dbProcessing, []⟩ :=
  ⟨(startJob_precondition_errors envStart dbProcessing "u1" "nope"
      (some (.jstr "http://x")) (by decide)).1 rfl,
   (startJob_precondition_errors envStart dbProcessing "u2" "j1"
      (some (.jstr "http://x")) (by decide)).2.1 cbJobProcessing rfl (by decide),
   (startJob_precondition_errors envStart dbProcessing "u1" "j1"
      (some (.jstr "http://x")) (by decide)).2.2 cbJobProcessing rfl rfl (by decide)⟩

/-- C6 fails on the code: the quota denial is surfaced as HTTP 500 (the
thrown rate-limit error lands in the generic catch), not 429
ResourceExhausted, even though the quota condition itself is as claimed. -/
theorem startJob_quota_cex :
    quotaCount dbQuota 1000 "u1" = 2 ∧
    (startJob envStart dbQuota "u1" (some "j3") (some (.jstr "http://x"))).httpStatus = 500 ∧
    (startJob envStart dbQuota "u1" (some "j3") (some (.jstr "http://x"))).errMsg =
      some freeTierMsg ∧
    (500 : Nat) ≠ 429 :=
  ⟨rfl, rfl, rfl, by decide⟩

theorem startJob_rate_ok_ne_quota (env : StartEnv) (db : DB) (uid jid : String)
    (img : Option JVal) (job : Job)
    (hjid : jid ≠ "")
    (hl : db.jobs.lookup jid = some job)
    (hown : job.userId = uid)
    (hpend : job.status = JobStatus.pending)
    (hmock : env.mockMode = false)
    (hrate : checkRateLimit db env.nowMs uid = true) :
    startJob env db uid (some jid) img ≠ ⟨500, some freeTierMsg, db, []⟩ := by
  intro hres
  have h0 : optTruthy (some jid) = true := by simp [optTruthy, hjid]
  have hOwn : (job.userId == uid) = true := by simp [hown]
  have hPend : (job.status == JobStatus.pending) = true := by simp [hpend]
  rw [startJob] at hres
  simp only [h0, hl, hOwn, hPend, hrate, Bool.not_true, Bool.false_eq_true, if_false,
    Option.getD_some] at hres
  cases himg : strTruthy img with
  | none => simp [himg] at hres
  | some url =>
    simp only [himg] at hres
    by_cases h4 : strStartsWith url "http" = true
    · simp only [h4, Bool.not_true, Bool.false_eq_true, if_false] at hres
      by_cases h5 : env.bucketOk = true
      · simp only [h5, Bool.not_true, Bool.false_eq_true, if_false] at hres
        by_cases h6 : (verifyStorageWritable env uid jid).fst = true
        · simp only [h6, Bool.not_true, Bool.false_eq_true, if_false, hmock] at hres
          cases hpred : env.predict with
          | error msg => simp [hpred] at hres
          | ok pid => simp [hpred] at hres
        · replace h6 : (verifyStorageWritable env uid jid).fst = false := by
            simpa using h6
          simp only [h6, Bool.not_false, if_true] at hres
          simp at hres
      · replace h5 : env.bucketOk = false := by simpa using h5
        simp only [h5, Bool.not_false, if_true] at hres
        simp at hres
    · replace h4 : strStartsWith url "http" = false := by simpa using h4
      simp [h4] at hres

/-- C6 (amended): for a caller starting an existing pending job they own
(mock mode off): if the caller has no `active` subscription, `startJob` fails
with HTTP 500 carrying the free-tier message exactly when at least 2 of the
user's jobs with status `processing` or `completed` were created within the
trailing 24 hours — `pending` and `failed` jobs do not count; and a user
whose stored `subscriptionStatus` is `active` is never denied by the quota
check: the rate limiter passes and `startJob` never returns the quota
response.  The quota denial is surfaced as 500, not 429/ResourceExhausted. -/
theorem startJob_quota (env : StartEnv) (db : DB) (uid jid : String)
    (img : Option JVal) (job : Job)
    (hjid : jid ≠ "")
    (hl : db.jobs.lookup jid = some job)
    (hown : job.userId = uid)
    (hpend : job.status = JobStatus.pending)
    (hmock : env.mockMode = false) :
    ((∀ u, db.users.lookup uid = some u → u.subscriptionStatus ≠ "active") →
      ((startJob env db uid (some jid) img = ⟨500, some freeTierMsg, db, []⟩) ↔
        2 ≤ quotaCount db env.nowMs uid))
    ∧ (∀ u, db.users.lookup uid = some u → u.subscriptionStatus = "active" →
        checkRateLimit db env.nowMs uid = true ∧
        startJob env db uid (some jid) img ≠ ⟨500, some freeTierMsg, db, []⟩) := by
  have h0 : optTruthy (some jid) = true := by simp [optTruthy, hjid]
  have hOwn : (job.userId == uid) = true := by simp [hown]
  have hPend : (job.status == JobStatus.pending) = true := by simp [hpend]
  constructor
  · intro hfree
    have hsub : ((db.users.lookup uid).map (fun u => u.subscriptionStatus)
        == some "active") = false := by
      cases hu : db.users.lookup uid with
      | none => simp
      | some u => simp [hfree u hu]
    constructor
    · intro hres
      by_contra hcnt
      push_neg at hcnt
      have hrate : checkRateLimit db env.nowMs uid = true := by
        unfold checkRateLimit
        simp [hsub, FREE_USER_DAILY_LIMIT]
        omega
      exact startJob_rate_ok_ne_quota env db uid jid img job
        hjid hl hown hpend hmock hrate hres
    · intro hcnt
      have hrate : checkRateLimit db env.nowMs uid = false := by
        unfold checkRateLimit
        simp [hsub, FREE_USER_DAILY_LIMIT]
        omega
      simp [startJob, h0, hl, hOwn, hPend, hrate]
  · intro u hu hact
    have hrate : checkRateLimit db env.nowMs uid = true := by
      simp [checkRateLimit, hu, hact]
    exact ⟨hrate,
      startJob_rate_ok_ne_quota env db uid jid img job hjid hl hown hpend hmock hrate⟩

/-- Witness for C6 (amended): on the free-tier two-job store the quota
response occurs exactly because the count is 2, and on the same store with
`u1` an active subscriber the rate limiter passes and the quota response
cannot occur. -/
theorem startJob_quota_witness :
    ((startJob envStart dbQuota "u1" (some "j3") (some (.jstr "http://x")) =
        ⟨500, some freeTierMsg, dbQuota, []⟩) ↔
      2 ≤ quotaCount dbQuota envStart.nowMs "u1") ∧
    (checkRateLimit dbQuotaActive envStart.nowMs "u1" = true ∧
      startJob envStart dbQuotaActive "u1" (some "j3") (some (.jstr "http://x")) ≠
        ⟨500, some freeTierMsg, dbQuotaActive, []⟩) :=
  ⟨(startJob_quota envStart dbQuota "u1" "j3" (some (.jstr "http://x")) pendJob
      (by decide) rfl rfl rfl rfl).1
      (fun u hu => by
        have h2 : (⟨"u1@x", "none", "u1"⟩ : UserRec) = u := Option.some.inj hu
        rw [← h2]
        decide),
   (startJob_quota envStart dbQuotaActive "u1" "j3" (some (.jstr "http://x")) pendJob
      (by decide) rfl rfl rfl rfl).2 ⟨"u1@x", "active", "u1"⟩ rfl rfl⟩

/-- C7: the current `startJob` never consults storage for the uploaded
input.  At a world where the input object does not exist
(`inputImageExists = false`), it still invokes the inference provider and
marks the job `processing`; the superseded handler at the same world marks
the job `failed` with `Image not uploaded`, answers 400, and makes no
inference call — which is the behaviour the spec requires. -/
theorem startJob_no_upload_check :
    envStart.inputImageExists = false ∧
    (startJob envStart dbFreeOne "u1" (some "j3") (some (.jstr "http://img"))).effects =
      [Effect.inferenceCall "http://img"] ∧
    ((startJob envStart dbFreeOne "u1" (some "j3") (some (.jstr "http://img"))).db.jobs.lookup
        "j3").map Job.status = some JobStatus.processing ∧
    envLegacyNoImage.inputImageExists = false ∧
    (startJobLegacy envLegacyNoImage dbFreeOne "u1" (some "j3")).effects = [] ∧
    ((startJobLegacy envLegacyNoImage dbFreeOne "u1" (some "j3")).db.jobs.lookup
        "j3").map Job.status = some JobStatus.failed ∧
    ((startJobLegacy envLegacyNoImage dbFreeOne "u1" (some "j3")).db.jobs.lookup
        "j3").map Job.errorMessage = some (some (.jstr "Image not uploaded")) ∧
    (startJobLegacy envLegacyNoImage dbFreeOne "u1" (some "j3")).httpStatus = 400 :=
  ⟨rfl, rfl, rfl, rfl, rfl, rfl, rfl, rfl⟩
